import Mathlib

/-!
Shallow embedding of the VOD relay engine of `src/backend/main.py`
(repository MazzArthur/reflow2.0): the quality-selection of the media
resolver adapter, the relay worker thread `stream_vods_thread`, and the
boundary routes `start_stream_route` / `stop_stream_route`.

External effects (the streamlink resolver, process spawning, per-item pipe
behaviour, the publish process exit code) are passed in as oracle
parameters; everything else follows the Python control flow line by line.
-/

namespace Reflow

/-- Observable per-user status, mirroring the dict values written to
`user_stream_status[user_id]` (a `status` string and a `current_vod`
string). -/
structure Status where
  status : String
  current_vod : String
deriving DecidableEq, Repr

/-- Outcome of `streamlink.streams(url)` (lines 318-334): either a mapping
from quality label to stream URL, the `NoStreamsError` exception, or any
other exception carrying a message. -/
inductive ResolveOutcome where
  | ok (streams : List (String × String))
  | noStreams
  | exc (msg : String)
deriving DecidableEq, Repr

/-- Quality selection of lines 320-324: if `quality in streams` take
`streams[quality].url`, elif `best in streams` take `streams[best].url`,
else `None`.  The Python dict is modelled as an association list with
`lookup`. -/
def select_m3u8 (streams : List (String × String)) (quality : String) : Option String :=
  match streams.lookup quality with
  | some u => some u
  | none => streams.lookup "best"

/-- Resolution of one queued URL (lines 317-334): query the resolver,
select a variant; on failure nothing is enqueued.  Returns the enqueued
URI, if any. -/
def resolveItem (resolve : String → ResolveOutcome) (quality url : String) :
    Option String :=
  match resolve url with
  | .ok streams => select_m3u8 streams quality
  | .noStreams => none
  | .exc _ => none

/-- Log line emitted while resolving one URL, when resolution fails
(lines 329, 331, 333); `none` when the item resolves silently. -/
def resolveLog (resolve : String → ResolveOutcome) (user_id quality url : String) :
    Option String :=
  match resolve url with
  | .ok streams =>
      match select_m3u8 streams quality with
      | some _ => none
      | none => some ("[" ++ user_id ++ "] Aviso: Não foi possível obter URL M3U8 para VOD: "
          ++ url ++ " com qualidade " ++ quality ++ ".")
  | .noStreams => some ("[" ++ user_id ++ "] Aviso: Nenhuma stream encontrada para VOD: " ++ url)
  | .exc m => some ("[" ++ user_id ++ "] Erro ao obter URL M3U8 para " ++ url ++ ": " ++ m)

/-- The resolution loop of lines 317-334: URLs are processed in order and
each resolved URI is appended to the queue (`user_vod_queues[user_id]`,
FIFO).  Returns the queue contents. -/
def resolveQueue (resolve : String → ResolveOutcome) (quality : String) :
    List String → List String
  | [] => []
  | url :: rest =>
      match resolveItem resolve quality url with
      | some u => u :: resolveQueue resolve quality rest
      | none => resolveQueue resolve quality rest

/-- Log lines emitted by the resolution loop, in order. -/
def resolveLogs (resolve : String → ResolveOutcome) (user_id quality : String) :
    List String → List String
  | [] => []
  | url :: rest =>
      match resolveLog resolve user_id quality url with
      | some l => l :: resolveLogs resolve user_id quality rest
      | none => resolveLogs resolve user_id quality rest

/-- The outbound RTMP URL of line 307: `rtmp://live.twitch.tv/app/` plus
the stream key. -/
def rtmp_base : String := "rtmp://live.twitch.tv/app"

/-- `rtmp_url = f"rtmp://live.twitch.tv/app/stream_key"` (line 307). -/
def rtmp_url (stream_key : String) : String := rtmp_base ++ "/" ++ stream_key

/-- The log line of line 343, printed verbatim before spawning the main
FFmpeg process. -/
def publishStartLog (user_id stream_key : String) : String :=
  "[" ++ user_id ++ "] Iniciando processo FFmpeg principal para RTMP: " ++ rtmp_url stream_key

/-- Behaviour of one item relay (inner loop, lines 373-384): either the
decode output is exhausted normally (`complete`, covering the zero-byte
case), or a write to the publish stdin raises `BrokenPipeError`
(`brokenPipe`: the publish process died), or it raises `ValueError`
(`stdinClosed`). -/
inductive ItemOutcome where
  | complete
  | brokenPipe
  | stdinClosed
deriving DecidableEq, Repr

/-- Outcome of `subprocess.Popen` for the main FFmpeg process
(lines 348-354): success, `FileNotFoundError` (caught at line 393), or any
other exception (caught at line 396). -/
inductive SpawnOutcome where
  | ok
  | fileNotFound (filename : String)
  | otherExc (msg : String)
deriving DecidableEq, Repr

/-- Result of the per-item relay loop of lines 362-385. -/
structure RelayResult where
  /-- the values assigned to `current_vod` at line 365, in order: one per
  dequeued item. -/
  itemTrace : List String
  /-- log lines printed inside the loop. -/
  logs : List String
  /-- status-dict writes performed inside the loop (line 365 mutates the
  `current_vod` field of the streaming status). -/
  statusWrites : List Status
  /-- decode processes spawned (line 367). -/
  decodeSpawned : Nat
  /-- decode processes waited on (line 385, reached on every exit of the
  inner loop). -/
  decodeReaped : Nat
  /-- queue items never dequeued when the loop exits. -/
  remaining : List String
deriving DecidableEq, Repr

/-- The outer while loop of lines 362-385: while the queue is non-empty and
`ffmpeg_process.poll() is None`, dequeue an item, log it, set
`current_vod`, spawn a decode process, pump bytes until end or pipe error,
and wait the decode process.  A `BrokenPipeError` means the publish process
died, so `poll()` stops returning `None` and iteration ends; a `ValueError`
leaves the process alive.  `n` is the index of the next item for the
`itemOutcome` oracle. -/
def relayLoop (user_id : String) (itemOutcome : Nat → ItemOutcome) :
    List String → Nat → Bool → RelayResult
  | [], _, _ => ⟨[], [], [], 0, 0, []⟩
  | url :: rest, n, alive =>
      if alive then
        let o := itemOutcome n
        let pipeLog : List String :=
          match o with
          | .brokenPipe =>
              ["[" ++ user_id ++ "] BrokenPipeError: FFmpeg principal encerrou inesperadamente."]
          | .stdinClosed =>
              ["[" ++ user_id ++ "] ValueError: stdin do FFmpeg principal foi fechado."]
          | .complete => []
        let alive2 := match o with | .brokenPipe => false | _ => alive
        let r := relayLoop user_id itemOutcome rest (n + 1) alive2
        { itemTrace := url :: r.itemTrace
          logs := ("[" ++ user_id ++ "] Transmitindo VOD: " ++ url) :: (pipeLog ++ r.logs)
          statusWrites := ⟨"Transmitindo (via Backend)", url⟩ :: r.statusWrites
          decodeSpawned := r.decodeSpawned + 1
          decodeReaped := r.decodeReaped + 1
          remaining := r.remaining }
      else
        ⟨[], [], [], 0, 0, url :: rest⟩

/-- Observable result of one run of the worker thread. -/
structure WorkerResult where
  /-- every line printed by the thread, in order. -/
  logs : List String
  /-- every assignment to `user_stream_status[user_id]`, in order. -/
  statusWrites : List Status
  /-- whether the main (publish) FFmpeg process was spawned. -/
  publishSpawned : Bool
  /-- whether the main FFmpeg process was waited on (line 390). -/
  publishReaped : Bool
  /-- the values assigned to `current_vod` at line 365. -/
  itemTrace : List String
  /-- decode processes spawned. -/
  decodeSpawned : Nat
  /-- decode processes waited on. -/
  decodeReaped : Nat
  /-- queue items never dequeued. -/
  remaining : List String
deriving DecidableEq, Repr

/-- `stream_vods_thread` (lines 303-409).  Oracles: `resolve` stands for
`streamlink.streams`, `spawnMain` for the `Popen` of the main FFmpeg,
`itemOutcome` for the byte-pumping behaviour of each dequeued item, and
`mainExitCode` for the publish process exit code collected at line 390. -/
def stream_vods_thread (user_id : String) (vod_urls : List String)
    (quality stream_key : String) (resolve : String → ResolveOutcome)
    (spawnMain : SpawnOutcome) (itemOutcome : Nat → ItemOutcome)
    (mainExitCode : Int) : WorkerResult :=
  let q := resolveQueue resolve quality vod_urls
  let rlogs := resolveLogs resolve user_id quality vod_urls
  if q.isEmpty then
    -- lines 336-341: empty queue, status set to Parado/Nenhum, early return
    -- (before the try block, so the finally of line 400 does not run)
    { logs := rlogs ++ ["[" ++ user_id
        ++ "] Nenhuma URL de VOD válida foi adicionada à fila. Encerrando thread de stream."]
      statusWrites := [⟨"Parado", "Nenhum"⟩]
      publishSpawned := false
      publishReaped := false
      itemTrace := []
      decodeSpawned := 0
      decodeReaped := 0
      remaining := [] }
  else
    -- lines 343-344
    let startLogs := rlogs ++ [publishStartLog user_id stream_key]
    let startWrites : List Status := [⟨"Transmitindo (via Backend)", "Iniciando..."⟩]
    match spawnMain with
    | .fileNotFound fn =>
        -- lines 393-395 then the finally of lines 400-409 (no entry was
        -- added to active_streams, so only the final status write runs)
        { logs := startLogs
            ++ ["[" ++ user_id ++ "] Erro: Comando não encontrado - " ++ fn
                ++ ". Certifique-se de que FFmpeg e Streamlink estão instalados e no PATH do servidor, ou que os caminhos em .env estão corretos.",
                "[" ++ user_id ++ "] Thread de transmissão encerrada. Status: Parado."]
          statusWrites := startWrites
            ++ [⟨"Erro", "Ferramenta não encontrada: " ++ fn⟩, ⟨"Parado", "Nenhum"⟩]
          publishSpawned := false
          publishReaped := false
          itemTrace := []
          decodeSpawned := 0
          decodeReaped := 0
          remaining := q }
    | .otherExc m =>
        -- lines 396-399 then the finally
        { logs := startLogs
            ++ ["[" ++ user_id ++ "] Erro inesperado na thread de stream: " ++ m,
                "[" ++ user_id ++ "] Thread de transmissão encerrada. Status: Parado."]
          statusWrites := startWrites
            ++ [⟨"Erro", "Erro interno: " ++ m⟩, ⟨"Parado", "Nenhum"⟩]
          publishSpawned := false
          publishReaped := false
          itemTrace := []
          decodeSpawned := 0
          decodeReaped := 0
          remaining := q }
    | .ok =>
        -- lines 348-391: spawn, relay loop, stdin.close(), wait(), then the
        -- finally (entry present, process already waited, so no terminate)
        let r := relayLoop user_id itemOutcome q 0 true
        { logs := startLogs ++ r.logs
            ++ ["[" ++ user_id ++ "] FFmpeg principal terminou com código: "
                  ++ toString mainExitCode,
                "[" ++ user_id ++ "] Processo FFmpeg limpo.",
                "[" ++ user_id ++ "] Thread de transmissão encerrada. Status: Parado."]
          statusWrites := startWrites ++ r.statusWrites ++ [⟨"Parado", "Nenhum"⟩]
          publishSpawned := true
          publishReaped := true
          itemTrace := r.itemTrace
          decodeSpawned := r.decodeSpawned
          decodeReaped := r.decodeReaped
          remaining := r.remaining }

/-- Rejection reasons of `start_stream_route` (lines 414-427), in the
order the code checks them: 401 when not authenticated, 400 when the
stream key is empty (line 420), 400 when the URL list is empty (line 423),
409 when `active_streams[user_id]` exists and `poll() is None`
(line 426). -/
inductive StartError where
  | notAuthenticated
  | missingCredential
  | emptyURLList
  | alreadyActive
deriving DecidableEq, Repr

instance {ε α : Type} [DecidableEq ε] [DecidableEq α] : DecidableEq (Except ε α) :=
  fun a b =>
    match a, b with
    | .ok x, .ok y =>
        if h : x = y then .isTrue (by rw [h]) else .isFalse (by simp [h])
    | .error x, .error y =>
        if h : x = y then .isTrue (by rw [h]) else .isFalse (by simp [h])
    | .ok _, .error _ => .isFalse (by simp)
    | .error _, .ok _ => .isFalse (by simp)

/-- Result of `start_stream_route`: an HTTP error or the acceptance
message, plus whether a worker thread was spawned (line 431). -/
structure StartDecision where
  result : Except StartError String
  workerSpawned : Bool
deriving DecidableEq, Repr

/-- `start_stream_route` (lines 413-438).  `user` is the session user id
(`none` when unauthenticated); `entryAlive` tells whether
`user_id in active_streams and active_streams[user_id].poll() is None`
holds at admission time. -/
def start_stream_route (user : Option String) (vod_urls : List String)
    (stream_key : String) (entryAlive : Bool) : StartDecision :=
  match user with
  | none => ⟨.error .notAuthenticated, false⟩
  | some _ =>
      if stream_key = "" then ⟨.error .missingCredential, false⟩
      else if vod_urls.isEmpty then ⟨.error .emptyURLList, false⟩
      else if entryAlive then ⟨.error .alreadyActive, false⟩
      else ⟨.ok "Iniciando transmissão em segundo plano. Verifique o status.", true⟩

/-- Rejection reasons of `stop_stream_route` (lines 441-463): 401 when not
authenticated, 404 when `user_id not in active_streams` (line 447), 500
when `terminate()` raises (line 460). -/
inductive StopError where
  | notAuthenticated
  | notFound
  | terminateFailed (msg : String)
deriving DecidableEq, Repr

/-- Observable result of `stop_stream_route`. -/
structure StopResult where
  /-- HTTP error or the returned JSON message. -/
  result : Except StopError String
  /-- assignments to `user_stream_status[user_id]`, in order. -/
  statusWrites : List Status
  /-- whether `terminate()` was delivered to the publish process. -/
  signalSent : Bool
  /-- whether the route waited on the publish process (no `wait` call
  exists in the route, lines 450-463). -/
  reaped : Bool
  /-- whether the entry was popped from `active_streams` (line 450). -/
  entryRemoved : Bool
deriving DecidableEq, Repr

/-- `stop_stream_route` (lines 440-467).  `entry` is
`active_streams.get(user_id)` abstracted to whether the stored process is
still alive (`poll() is None`); `terminateExc` is `some msg` when
`terminate()` raises. -/
def stop_stream_route (user : Option String) (entry : Option Bool)
    (terminateExc : Option String) : StopResult :=
  match user with
  | none => ⟨.error .notAuthenticated, [], false, false, false⟩
  | some _ =>
      match entry with
      | none => ⟨.error .notFound, [], false, false, false⟩
      | some alive =>
          -- lines 450-451: pop the entry, write Parando.../Nenhum
          if alive then
            match terminateExc with
            | some m =>
                ⟨.error (.terminateFailed m),
                 [⟨"Parando...", "Nenhum"⟩, ⟨"Erro", "Erro ao encerrar: " ++ m⟩],
                 false, false, true⟩
            | none =>
                -- lines 456-459: terminate, then immediately Parado/Nenhum
                ⟨.ok "Sinal de encerramento enviado. Verifique o status.",
                 [⟨"Parando...", "Nenhum"⟩, ⟨"Parado", "Nenhum"⟩],
                 true, false, true⟩
          else
            -- lines 464-467: process already exited
            ⟨.ok "Transmissão já estava inativa.",
             [⟨"Parando...", "Nenhum"⟩, ⟨"Parado", "Nenhum"⟩],
             false, false, true⟩

/-!
Interleaving model for claim C4: one owner, the admission check of
lines 426-427, and workers that populate `active_streams` only at
line 355, i.e. after resolution.  Each launched worker passes through
`resolving` (lines 303-347, before the entry exists), `streaming`
(entry present and the process alive) and `stopped`.
-/

/-- Phase of one launched worker of the fixed owner. -/
inductive Phase where
  | resolving
  | streaming
  | stopped
deriving DecidableEq, Repr

/-- Registry state visible to `start_stream_route` for this owner:
whether `user_id in active_streams and poll() is None`, plus the phases of
all workers launched so far. -/
structure Reg where
  entryAlive : Bool
  workers : List Phase
deriving DecidableEq, Repr

/-- The admission check of lines 426-427: a start is admitted unless the
owner's `active_streams` entry exists with a live process. -/
def startAdmitted (r : Reg) : Bool := !r.entryAlive

/-- Whether a worker phase counts as active (the spec's live states
{Resolving, Streaming, Stopping}). -/
def isActive : Phase → Bool
  | .resolving => true
  | .streaming => true
  | .stopped => false

/-- Number of workers in an active phase. -/
def countActive (ws : List Phase) : Nat := (ws.filter isActive).length

/-- Transitions of the one-owner registry: an admitted `Start` spawns a
worker in `resolving` (lines 426-436, the entry is untouched); a resolving
worker that spawns its publish process sets the entry (line 355) and
becomes `streaming`; a streaming worker finishing clears the entry
(lines 401-406) and becomes `stopped`. -/
inductive Step : Reg → Reg → Prop
  | start (r : Reg) (h : startAdmitted r = true) :
      Step r ⟨r.entryAlive, r.workers ++ [Phase.resolving]⟩
  | publish (r : Reg) (pre post : List Phase)
      (h : r.workers = pre ++ Phase.resolving :: post) :
      Step r ⟨true, pre ++ Phase.streaming :: post⟩
  | finish (r : Reg) (pre post : List Phase)
      (h : r.workers = pre ++ Phase.streaming :: post) :
      Step r ⟨false, pre ++ Phase.stopped :: post⟩

/-- Reachability from the initial empty registry. -/
inductive Reach : Reg → Prop
  | init : Reach ⟨false, []⟩
  | step {r r' : Reg} : Reach r → Step r r' → Reach r'

/-!  Concrete oracles used by counterexamples and witnesses. -/

/-- A resolver whose every URL exposes a single `best` variant. -/
def bestResolve : String → ResolveOutcome :=
  fun url => .ok [("best", url ++ ".m3u8")]

/-- A resolver that finds no streams for any URL
(`streamlink.exceptions.NoStreamsError`). -/
def noStreamsResolve : String → ResolveOutcome := fun _ => .noStreams

/-- A resolver that fails on `vodA` and exposes a `best` variant for every
other URL. -/
def skipAResolve : String → ResolveOutcome :=
  fun url => if url = "vodA" then .noStreams else .ok [("best", url ++ ".m3u8")]

/-- Item behaviour where the very first dequeued item hits a broken pipe. -/
def brokenPipeAt0 : Nat → ItemOutcome :=
  fun n => if n = 0 then .brokenPipe else .complete

/-- Item behaviour where every item is pumped to completion. -/
def allComplete : Nat → ItemOutcome := fun _ => .complete

/-! ## General lemmas about the relay loop -/

/-- The last element of a non-empty list of the shape
`x :: (l ++ [p])`. -/
theorem getLast?_cons_concat {α : Type} (x p : α) (l : List α) :
    (x :: (l ++ [p])).getLast? = some p := by
  rw [← List.cons_append, List.getLast?_append_cons]
  rfl

/-- When the publish process is already dead at loop entry, the loop body
never runs (lines 362: `poll() is None` fails) and the whole queue is left
untouched. -/
theorem relayLoop_dead (user_id : String) (io : Nat → ItemOutcome)
    (q : List String) (n : Nat) :
    relayLoop user_id io q n false = ⟨[], [], [], 0, 0, q⟩ := by
  cases q <;> simp [relayLoop]

/-- When no item ever hits a broken pipe, the loop drains the whole queue
in order. -/
theorem relayLoop_complete (user_id : String) (io : Nat → ItemOutcome)
    (hio : ∀ n, io n ≠ .brokenPipe) :
    ∀ (q : List String) (n : Nat),
      (relayLoop user_id io q n true).itemTrace = q ∧
      (relayLoop user_id io q n true).remaining = [] ∧
      (relayLoop user_id io q n true).decodeSpawned = q.length ∧
      (relayLoop user_id io q n true).decodeReaped = q.length := by
  intro q
  induction q with
  | nil => intro n; simp [relayLoop]
  | cons url rest ih =>
      intro n
      have h := hio n
      cases ho : io n with
      | brokenPipe => exact absurd ho h
      | complete =>
          have := ih (n + 1)
          simp [relayLoop, ho, this.1, this.2.1, this.2.2.1, this.2.2.2]
      | stdinClosed =>
          have := ih (n + 1)
          simp [relayLoop, ho, this.1, this.2.1, this.2.2.1, this.2.2.2]

/-- When the first broken pipe happens on item `k`, exactly the items
`0..k` are attempted, each spawned decode process is waited on, and the
rest of the queue is left untouched. -/
theorem relayLoop_brokenPipe (user_id : String) (io : Nat → ItemOutcome) :
    ∀ (q : List String) (n k : Nat), k < q.length →
      (∀ j, j < k → io (n + j) ≠ .brokenPipe) →
      io (n + k) = .brokenPipe →
      (relayLoop user_id io q n true).itemTrace = q.take (k + 1) ∧
      (relayLoop user_id io q n true).remaining = q.drop (k + 1) ∧
      (relayLoop user_id io q n true).decodeSpawned = k + 1 ∧
      (relayLoop user_id io q n true).decodeReaped = k + 1 := by
  intro q
  induction q with
  | nil => intro n k hk; simp at hk
  | cons url rest ih =>
      intro n k hk hpre hbp
      cases k with
      | zero =>
          have h0 : io n = .brokenPipe := by simpa using hbp
          have hr := relayLoop_dead user_id io rest (n + 1)
          simp [relayLoop, h0, hr]
      | succ k2 =>
          have h0 : io n ≠ .brokenPipe := by
            have := hpre 0 (Nat.succ_pos k2)
            simpa using this
          have hk2 : k2 < rest.length := by
            simpa [Nat.succ_lt_succ_iff] using hk
          have hpre2 : ∀ j, j < k2 → io (n + 1 + j) ≠ .brokenPipe := by
            intro j hj
            have := hpre (j + 1) (by omega)
            have harith : n + (j + 1) = n + 1 + j := by omega
            rw [harith] at this
            exact this
          have hbp2 : io (n + 1 + k2) = .brokenPipe := by
            have harith : n + (k2 + 1) = n + 1 + k2 := by omega
            rw [harith] at hbp
            exact hbp
          have hih := ih (n + 1) k2 hk2 hpre2 hbp2
          cases ho : io n with
          | brokenPipe => exact absurd ho h0
          | complete =>
              simp [relayLoop, ho, hih.1, hih.2.1, hih.2.2.1, hih.2.2.2]
          | stdinClosed =>
              simp [relayLoop, ho, hih.1, hih.2.1, hih.2.2.1, hih.2.2.2]

/-! ## Claim C1 -/

/-- Claim C1 counterexample: the claim says the outbound RTMP URL (the
RTMP base concatenated with the stream key) is never logged verbatim by
the relay worker.  On a start request with one resolving URL and stream
key `s3cret`, the worker's log output contains a line ending in the full
outbound RTMP URL `rtmp_base ++ "/" ++ "s3cret"` (line 343 of
`main.py`). -/
theorem c1_key_logged_counterexample :
    ("[u] Iniciando processo FFmpeg principal para RTMP: "
        ++ (rtmp_base ++ "/" ++ "s3cret")) ∈
      (stream_vods_thread "u" ["vodB"] "720p" "s3cret" bestResolve
        .ok allComplete 0).logs := by
  decide

/-- Claim C1 amended: whenever at least one queued URL resolves, the relay
worker logs the outbound RTMP URL verbatim, in the startup line of
line 343, before spawning the publish process; so the stream key does
appear in the log output. -/
theorem c1_key_logged (user_id quality stream_key : String)
    (vod_urls : List String) (resolve : String → ResolveOutcome)
    (spawnMain : SpawnOutcome) (io : Nat → ItemOutcome) (rc : Int)
    (h : resolveQueue resolve quality vod_urls ≠ []) :
    publishStartLog user_id stream_key ∈
      (stream_vods_thread user_id vod_urls quality stream_key resolve
        spawnMain io rc).logs := by
  have hne : (resolveQueue resolve quality vod_urls).isEmpty = false := by
    simpa [List.isEmpty_iff] using h
  cases spawnMain <;> simp [stream_vods_thread, hne, List.mem_append]

/-- Witness for the amended claim C1 at a concrete input. -/
theorem c1_key_logged_witness :
    publishStartLog "u" "k" ∈
      (stream_vods_thread "u" ["v"] "best" "k" bestResolve .ok
        allComplete 0).logs :=
  c1_key_logged "u" "best" "k" ["v"] bestResolve .ok allComplete 0 (by decide)

/-! ## Claim C2 -/

/-- Claim C2 counterexample: the claim says that when no queued URL
resolves the session's final state is `Error` (`NoValidMedia`).  On a
start request whose single URL exposes no streams, the worker's final
status write is `Parado`/`Nenhum` (Stopped, no item), whose state is not
`Erro` (lines 336-341 of `main.py`); no publish process is spawned. -/
theorem c2_no_valid_media_counterexample :
    ((stream_vods_thread "u" ["vodA"] "best" "k" noStreamsResolve .ok
        allComplete 0).statusWrites.getLast? = some ⟨"Parado", "Nenhum"⟩) ∧
    ((stream_vods_thread "u" ["vodA"] "best" "k" noStreamsResolve .ok
        allComplete 0).statusWrites.getLast?.map Status.status ≠ some "Erro") ∧
    ((stream_vods_thread "u" ["vodA"] "best" "k" noStreamsResolve .ok
        allComplete 0).publishSpawned = false) := by
  refine ⟨by decide, by decide, by decide⟩

/-- Claim C2 amended: if no queued URL resolves, the worker writes exactly
one status, `Parado`/`Nenhum` (Stopped, no item) — not `Error` — logs a
warning, and terminates with no publish process ever spawned. -/
theorem c2_no_valid_media (user_id quality stream_key : String)
    (vod_urls : List String) (resolve : String → ResolveOutcome)
    (spawnMain : SpawnOutcome) (io : Nat → ItemOutcome) (rc : Int)
    (h : resolveQueue resolve quality vod_urls = []) :
    ((stream_vods_thread user_id vod_urls quality stream_key resolve
        spawnMain io rc).statusWrites = [⟨"Parado", "Nenhum"⟩]) ∧
    ((stream_vods_thread user_id vod_urls quality stream_key resolve
        spawnMain io rc).publishSpawned = false) ∧
    (("[" ++ user_id
        ++ "] Nenhuma URL de VOD válida foi adicionada à fila. Encerrando thread de stream.") ∈
      (stream_vods_thread user_id vod_urls quality stream_key resolve
        spawnMain io rc).logs) := by
  have he : (resolveQueue resolve quality vod_urls).isEmpty = true := by
    simp [List.isEmpty_iff, h]
  simp [stream_vods_thread, he]

/-- Witness for the amended claim C2 at a concrete input. -/
theorem c2_no_valid_media_witness :
    ((stream_vods_thread "u" ["vodA"] "best" "k" noStreamsResolve .ok
        allComplete 0).statusWrites = [⟨"Parado", "Nenhum"⟩]) ∧
    ((stream_vods_thread "u" ["vodA"] "best" "k" noStreamsResolve .ok
        allComplete 0).publishSpawned = false) ∧
    (("[u] Nenhuma URL de VOD válida foi adicionada à fila. Encerrando thread de stream.") ∈
      (stream_vods_thread "u" ["vodA"] "best" "k" noStreamsResolve .ok
        allComplete 0).logs) :=
  c2_no_valid_media "u" "best" "k" ["vodA"] noStreamsResolve .ok
    allComplete 0 (by decide)

/-! ## Claim C3 -/

/-- Claim C3 counterexample: the claim says Stop on an owner with no
session returns a no-op success.  In `stop_stream_route`, an authenticated
owner with no `active_streams` entry gets a 404 `NotFound` rejection
(lines 447-448 of `main.py`), not a success. -/
theorem c3_stop_idempotent_counterexample :
    (stop_stream_route (some "u") none none).result =
      Except.error StopError.notFound := by
  decide

/-- Claim C3 amended: Stop is a no-op success ("Transmissão já estava
inativa.") only when the owner's `active_streams` entry exists but its
process already exited; when the owner has no entry at all, Stop is
rejected with 404 `NotFound`, so the operation is not idempotent in that
case. -/
theorem c3_stop_idempotent (u : String) (texc : Option String) :
    ((stop_stream_route (some u) (some false) texc).result =
      Except.ok "Transmissão já estava inativa.") ∧
    ((stop_stream_route (some u) (some false) texc).statusWrites.getLast? =
      some ⟨"Parado", "Nenhum"⟩) ∧
    ((stop_stream_route (some u) none texc).result =
      Except.error StopError.notFound) := by
  exact ⟨rfl, rfl, rfl⟩

/-! ## Claim C4 -/

/-- Claim C4 counterexample: the claim says at most one session per owner
is ever in {Resolving, Streaming, Stopping}, because a Start for an owner
with an active session is rejected.  But the `AlreadyActive` check of
lines 426-427 only inspects `active_streams`, which a worker populates at
line 355, after resolution; so from the empty registry, two consecutive
admitted Start calls produce a reachable state with two workers of the
same owner simultaneously in the Resolving phase. -/
theorem c4_single_active_counterexample :
    Reach ⟨false, [Phase.resolving, Phase.resolving]⟩ ∧
    countActive [Phase.resolving, Phase.resolving] = 2 :=
  ⟨Reach.step (Reach.step Reach.init (Step.start ⟨false, []⟩ rfl))
      (Step.start ⟨false, [Phase.resolving]⟩ rfl),
    by decide⟩

/-- Claim C4 amended: a Start for an owner is rejected with
`AlreadyActive` exactly while the owner's `active_streams` entry holds a
live publish process; while that is the case no step launches a new
worker.  The at-most-one-active guarantee itself does not hold: during
the Resolving phase the entry is absent, so concurrent Starts are all
admitted. -/
theorem c4_admission_guard (r r2 : Reg) (h : Step r r2)
    (ha : r.entryAlive = true) :
    r2.workers.length = r.workers.length := by
  cases h with
  | start hadm =>
      exfalso
      simp [startAdmitted, ha] at hadm
  | publish pre post hw => simp [hw]
  | finish pre post hw => simp [hw]

/-- Witness for the amended claim C4 at a concrete step: a streaming
worker finishing while the entry is alive does not change the number of
launched workers. -/
theorem c4_admission_guard_witness :
    (Reg.mk false [Phase.stopped]).workers.length =
      (Reg.mk true [Phase.streaming]).workers.length :=
  c4_admission_guard ⟨true, [Phase.streaming]⟩ ⟨false, [Phase.stopped]⟩
    (Step.finish ⟨true, [Phase.streaming]⟩ [] [] rfl) rfl

/-! ## Claim C5 -/

/-- Claim C5 counterexample: the claim says that after a broken pipe on
item k the session ends in `Error`.  On a run of three resolving URLs
where item 0 hits a broken pipe, the remaining items are skipped, the
decode process is reaped and the publish process is reaped — but the final
status write is `Parado`/`Nenhum` (Stopped), not `Erro`: the `finally`
block of lines 400-409 overwrites everything. -/
theorem c5_broken_pipe_counterexample :
    ((stream_vods_thread "u" ["a", "b", "c"] "best" "k" bestResolve .ok
        brokenPipeAt0 1).remaining = ["b.m3u8", "c.m3u8"]) ∧
    ((stream_vods_thread "u" ["a", "b", "c"] "best" "k" bestResolve .ok
        brokenPipeAt0 1).decodeReaped = 1) ∧
    ((stream_vods_thread "u" ["a", "b", "c"] "best" "k" bestResolve .ok
        brokenPipeAt0 1).publishReaped = true) ∧
    ((stream_vods_thread "u" ["a", "b", "c"] "best" "k" bestResolve .ok
        brokenPipeAt0 1).statusWrites.getLast?.map Status.status =
      some "Parado") := by
  refine ⟨by decide, by decide, by decide, by decide⟩

/-- Claim C5 amended: if the publish process dies mid-relay (broken pipe
on item k, no earlier broken pipe), the remaining queue items are never
attempted, every spawned decode process — the in-flight one included — is
waited on, and the publish process is still waited on; but the session's
final status is `Parado`/`Nenhum` (Stopped), not `Error`. -/
theorem c5_broken_pipe (user_id quality stream_key : String)
    (vod_urls : List String) (resolve : String → ResolveOutcome)
    (io : Nat → ItemOutcome) (rc : Int) (k : Nat)
    (hk : k < (resolveQueue resolve quality vod_urls).length)
    (hpre : ∀ j, j < k → io j ≠ .brokenPipe)
    (hbp : io k = .brokenPipe) :
    ((stream_vods_thread user_id vod_urls quality stream_key resolve .ok
        io rc).itemTrace = (resolveQueue resolve quality vod_urls).take (k + 1)) ∧
    ((stream_vods_thread user_id vod_urls quality stream_key resolve .ok
        io rc).remaining = (resolveQueue resolve quality vod_urls).drop (k + 1)) ∧
    ((stream_vods_thread user_id vod_urls quality stream_key resolve .ok
        io rc).decodeSpawned = k + 1) ∧
    ((stream_vods_thread user_id vod_urls quality stream_key resolve .ok
        io rc).decodeReaped = k + 1) ∧
    ((stream_vods_thread user_id vod_urls quality stream_key resolve .ok
        io rc).publishReaped = true) ∧
    ((stream_vods_thread user_id vod_urls quality stream_key resolve .ok
        io rc).statusWrites.getLast? = some ⟨"Parado", "Nenhum"⟩) := by
  have hne : (resolveQueue resolve quality vod_urls).isEmpty = false := by
    rcases hq : resolveQueue resolve quality vod_urls with _ | _
    · rw [hq] at hk; simp at hk
    · simp
  have hloop := relayLoop_brokenPipe user_id io
    (resolveQueue resolve quality vod_urls) 0 k hk
    (by intro j hj; simpa using hpre j hj) (by simpa using hbp)
  simp [stream_vods_thread, hne, hloop.1, hloop.2.1, hloop.2.2.1,
    hloop.2.2.2, getLast?_cons_concat]

/-- Witness for the amended claim C5 at a concrete input. -/
theorem c5_broken_pipe_witness :
    ((stream_vods_thread "u" ["a", "b", "c"] "best" "k" bestResolve .ok
        brokenPipeAt0 1).itemTrace = ["a.m3u8"]) ∧
    ((stream_vods_thread "u" ["a", "b", "c"] "best" "k" bestResolve .ok
        brokenPipeAt0 1).remaining = ["b.m3u8", "c.m3u8"]) ∧
    ((stream_vods_thread "u" ["a", "b", "c"] "best" "k" bestResolve .ok
        brokenPipeAt0 1).decodeSpawned = 1) ∧
    ((stream_vods_thread "u" ["a", "b", "c"] "best" "k" bestResolve .ok
        brokenPipeAt0 1).decodeReaped = 1) ∧
    ((stream_vods_thread "u" ["a", "b", "c"] "best" "k" bestResolve .ok
        brokenPipeAt0 1).publishReaped = true) ∧
    ((stream_vods_thread "u" ["a", "b", "c"] "best" "k" bestResolve .ok
        brokenPipeAt0 1).statusWrites.getLast? = some ⟨"Parado", "Nenhum"⟩) :=
  c5_broken_pipe "u" "best" "k" ["a", "b", "c"] bestResolve brokenPipeAt0 1 0
    (by decide) (fun j hj => absurd hj (Nat.not_lt_zero j)) (by decide)

/-! ## Claim C6 -/

/-- Claim C6: for a start request with URL list [A, B, C] in which only B
and C resolve (to uB and uC), and a publish process that never dies
mid-item, the sequence of items assigned to `nowPlaying` (`current_vod`,
line 365) over the run is exactly [uB, uC]: queued order, no skipped
item, no reordering. -/
theorem c6_ordered_relay (user_id quality stream_key : String)
    (urlA urlB urlC uB uC : String) (resolve : String → ResolveOutcome)
    (io : Nat → ItemOutcome) (rc : Int)
    (hA : resolveItem resolve quality urlA = none)
    (hB : resolveItem resolve quality urlB = some uB)
    (hC : resolveItem resolve quality urlC = some uC)
    (hio : ∀ n, io n ≠ .brokenPipe) :
    ((stream_vods_thread user_id [urlA, urlB, urlC] quality stream_key
        resolve .ok io rc).itemTrace = [uB, uC]) ∧
    ((stream_vods_thread user_id [urlA, urlB, urlC] quality stream_key
        resolve .ok io rc).remaining = []) := by
  have hq : resolveQueue resolve quality [urlA, urlB, urlC] = [uB, uC] := by
    simp [resolveQueue, hA, hB, hC]
  have hne : (resolveQueue resolve quality [urlA, urlB, urlC]).isEmpty = false := by
    simp [hq]
  have hloop := relayLoop_complete user_id io hio [uB, uC] 0
  simp [stream_vods_thread, hne, hq, hloop.1, hloop.2.1]

/-- Witness for claim C6 at a concrete input: `vodA` exposes no streams,
`vodB` and `vodC` resolve to their `best` variants. -/
theorem c6_ordered_relay_witness :
    ((stream_vods_thread "u" ["vodA", "vodB", "vodC"] "best" "k"
        skipAResolve .ok allComplete 0).itemTrace =
      ["vodB.m3u8", "vodC.m3u8"]) ∧
    ((stream_vods_thread "u" ["vodA", "vodB", "vodC"] "best" "k"
        skipAResolve .ok allComplete 0).remaining = []) :=
  c6_ordered_relay "u" "best" "k" "vodA" "vodB" "vodC" "vodB.m3u8"
    "vodC.m3u8" skipAResolve allComplete 0 (by decide) (by decide)
    (by decide) (fun _ h => ItemOutcome.noConfusion h)

/-! ## Claim C7 -/

/-- Claim C7: for every source URL and requested quality, when the
external resolver returns a variant map, the adapter selects the variant
named by the quality label if present; otherwise the variant labeled
`best` if present; otherwise the item fails resolution and contributes
nothing to the queue (lines 320-329 of `main.py`). -/
theorem c7_quality_selection (streams : List (String × String))
    (quality url : String) (resolve : String → ResolveOutcome)
    (rest : List String) (hres : resolve url = .ok streams) :
    (resolveItem resolve quality url = select_m3u8 streams quality) ∧
    ((streams.lookup quality).isSome = true →
      select_m3u8 streams quality = streams.lookup quality) ∧
    (streams.lookup quality = none →
      select_m3u8 streams quality = streams.lookup "best") ∧
    (select_m3u8 streams quality = none →
      resolveQueue resolve quality (url :: rest) =
        resolveQueue resolve quality rest) := by
  refine ⟨by simp [resolveItem, hres], ?_, ?_, ?_⟩
  · intro hq
    rcases hs : streams.lookup quality with _ | u
    · rw [hs] at hq; simp at hq
    · simp [select_m3u8, hs]
  · intro hq
    simp [select_m3u8, hq]
  · intro hnone
    simp [resolveQueue, resolveItem, hres, hnone]

/-- Witness for claim C7 at a concrete variant map: the exact match wins
over `best`, a missing label falls back to `best`, and a fully missing
selection enqueues nothing. -/
theorem c7_quality_selection_witness :
    (resolveItem (fun _ => .ok [("720p", "u7"), ("best", "ub")]) "720p" "v" =
      select_m3u8 [("720p", "u7"), ("best", "ub")] "720p") ∧
    (([("720p", "u7"), ("best", "ub")].lookup "720p").isSome = true →
      select_m3u8 [("720p", "u7"), ("best", "ub")] "720p" =
        [("720p", "u7"), ("best", "ub")].lookup "720p") ∧
    ([("720p", "u7"), ("best", "ub")].lookup "720p" = none →
      select_m3u8 [("720p", "u7"), ("best", "ub")] "720p" =
        [("720p", "u7"), ("best", "ub")].lookup "best") ∧
    (select_m3u8 [("720p", "u7"), ("best", "ub")] "720p" = none →
      resolveQueue (fun _ => .ok [("720p", "u7"), ("best", "ub")]) "720p" ["v"] =
        resolveQueue (fun _ => .ok [("720p", "u7"), ("best", "ub")]) "720p" []) :=
  c7_quality_selection [("720p", "u7"), ("best", "ub")] "720p" "v"
    (fun _ => .ok [("720p", "u7"), ("best", "ub")]) [] rfl

/-! ## Claim C8 -/

/-- Claim C8 counterexample: the claim says the state becomes `Stopped`
only once the publish process has been both signaled and reaped.  On a
Stop with a live process, `stop_stream_route` writes `Parado` (Stopped)
immediately after `terminate()` (lines 456-458) while the route never
calls `wait` on the process. -/
theorem c8_stop_reap_counterexample :
    ((stop_stream_route (some "u") (some true) none).statusWrites.getLast? =
      some ⟨"Parado", "Nenhum"⟩) ∧
    ((stop_stream_route (some "u") (some true) none).reaped = false) ∧
    ((stop_stream_route (some "u") (some true) none).signalSent = true) := by
  refine ⟨rfl, rfl, rfl⟩

/-- Claim C8 amended: on a Stop with a live publish process the route
writes `Parando...` then, immediately after delivering the terminate
signal, `Parado` — without ever waiting on the process (no reap happens in
the route); it answers with a message telling the caller to check the
status. -/
theorem c8_stop_async (u : String) :
    ((stop_stream_route (some u) (some true) none).statusWrites =
      [⟨"Parando...", "Nenhum"⟩, ⟨"Parado", "Nenhum"⟩]) ∧
    ((stop_stream_route (some u) (some true) none).signalSent = true) ∧
    ((stop_stream_route (some u) (some true) none).reaped = false) ∧
    ((stop_stream_route (some u) (some true) none).result =
      Except.ok "Sinal de encerramento enviado. Verifique o status.") := by
  exact ⟨rfl, rfl, rfl, rfl⟩

/-! ## Claim C9 -/

/-- Claim C9 counterexample: the claim says every Start with an empty URL
list is rejected with the `EmptyURLList` admission error.  But the
stream-key check of line 420 precedes the URL-list check of line 423, so
an authenticated Start with an empty list and an empty key is rejected
with `MissingCredential` instead (still with no worker created). -/
theorem c9_empty_urls_counterexample :
    ((start_stream_route (some "u") [] "" false).result =
      Except.error StartError.missingCredential) ∧
    (StartError.missingCredential ≠ StartError.emptyURLList) ∧
    ((start_stream_route (some "u") [] "" false).workerSpawned = false) := by
  refine ⟨rfl, by decide, rfl⟩

/-- Claim C9 amended: every authenticated Start with an empty URL list is
rejected synchronously and no worker thread is created; the rejection is
`EmptyURLList` when the credential is nonempty, and `MissingCredential`
when the credential is also empty (the credential check runs first). -/
theorem c9_empty_urls (u stream_key : String) (entryAlive : Bool) :
    ((start_stream_route (some u) [] stream_key entryAlive).workerSpawned =
      false) ∧
    (stream_key ≠ "" →
      (start_stream_route (some u) [] stream_key entryAlive).result =
        Except.error StartError.emptyURLList) ∧
    (stream_key = "" →
      (start_stream_route (some u) [] stream_key entryAlive).result =
        Except.error StartError.missingCredential) := by
  by_cases hkey : stream_key = "" <;>
    simp [start_stream_route, hkey]

/-- Witness for the amended claim C9 at a concrete input with a nonempty
credential. -/
theorem c9_empty_urls_witness :
    ((start_stream_route (some "u") [] "sk" false).workerSpawned = false) ∧
    ((start_stream_route (some "u") [] "sk" false).result =
      Except.error StartError.emptyURLList) :=
  ⟨(c9_empty_urls "u" "sk" false).1,
    (c9_empty_urls "u" "sk" false).2.1 (by decide)⟩

/-! ## Claim C10 -/

/-- Claim C10: on every exit path of the worker thread — normal
completion, tool-not-found, and any unexpected exception — the last status
write is `Parado`/`Nenhum` (the `finally` block of lines 400-409), so an
`Erro` status written by the exception handlers of lines 393-399 is never
the final observable status; on those error paths the `Erro` write does
occur, strictly before the final overwrite. -/
theorem c10_finally_overwrites (user_id quality stream_key : String)
    (vod_urls : List String) (resolve : String → ResolveOutcome)
    (spawnMain : SpawnOutcome) (io : Nat → ItemOutcome) (rc : Int)
    (fn m : String) :
    ((stream_vods_thread user_id vod_urls quality stream_key resolve
        spawnMain io rc).statusWrites.getLast? = some ⟨"Parado", "Nenhum"⟩) ∧
    ((resolveQueue resolve quality vod_urls ≠ [] →
      spawnMain = .fileNotFound fn →
      (⟨"Erro", "Ferramenta não encontrada: " ++ fn⟩ : Status) ∈
        (stream_vods_thread user_id vod_urls quality stream_key resolve
          spawnMain io rc).statusWrites)) ∧
    ((resolveQueue resolve quality vod_urls ≠ [] →
      spawnMain = .otherExc m →
      (⟨"Erro", "Erro interno: " ++ m⟩ : Status) ∈
        (stream_vods_thread user_id vod_urls quality stream_key resolve
          spawnMain io rc).statusWrites)) := by
  refine ⟨?_, ?_, ?_⟩
  · rcases he : (resolveQueue resolve quality vod_urls).isEmpty with _ | _
    · cases spawnMain <;>
        simp [stream_vods_thread, he, getLast?_cons_concat]
    · simp [stream_vods_thread, he]
  · intro hq hsp
    have hne : (resolveQueue resolve quality vod_urls).isEmpty = false := by
      simpa [List.isEmpty_iff] using hq
    simp [stream_vods_thread, hne, hsp]
  · intro hq hsp
    have hne : (resolveQueue resolve quality vod_urls).isEmpty = false := by
      simpa [List.isEmpty_iff] using hq
    simp [stream_vods_thread, hne, hsp]

/-- Witness for claim C10 at a concrete input on the tool-not-found path:
the `Erro` status is written and the final status write is still
`Parado`/`Nenhum`. -/
theorem c10_finally_overwrites_witness :
    ((stream_vods_thread "u" ["v"] "best" "k" bestResolve
        (.fileNotFound "ffmpeg") allComplete 0).statusWrites.getLast? =
      some ⟨"Parado", "Nenhum"⟩) ∧
    ((⟨"Erro", "Ferramenta não encontrada: " ++ "ffmpeg"⟩ : Status) ∈
      (stream_vods_thread "u" ["v"] "best" "k" bestResolve
        (.fileNotFound "ffmpeg") allComplete 0).statusWrites) :=
  ⟨(c10_finally_overwrites "u" "best" "k" ["v"] bestResolve
      (.fileNotFound "ffmpeg") allComplete 0 "ffmpeg" "m").1,
    (c10_finally_overwrites "u" "best" "k" ["v"] bestResolve
      (.fileNotFound "ffmpeg") allComplete 0 "ffmpeg" "m").2.1
      (by decide) rfl⟩

end Reflow
